import Mathlib

/-!
Shallow embedding of `src/main.py` (OTC_Action_Logger): a process-gated
connection supervisor with dual-sink event logging.

The embedding models the program state that the claims talk about:
the relational store (SQLite table `activity`) as a list of rows, the
document store (the JSON log file) as a parse-level file state, the
notification channel (Telegram) as a list of delivered messages, the
local diagnostic stream (stdout warnings) as a list of strings, and the
sleeps the supervisor performs.  External collaborators are modelled at
their interface: the JSON serializer `json.dumps` is an abstract
function `dumps : A -> String` passed as a parameter, the clock is a
parameter `now` (the value `datetime.now(timezone.utc).isoformat()`
returns for the call), and a Telegram send either succeeds or raises an
exception carried as `Option String` (`some e` meaning `bot.send_message`
raised the exception rendered as `e`).
-/

namespace OTC

/-- One row of the relational store: the SQLite table
`activity(timestamp TEXT, event_type TEXT, description TEXT, raw_data TEXT)`.
`raw_data` holds the `json.dumps` serialization of the payload. -/
structure Row where
  timestamp : String
  event_type : String
  description : String
  raw_data : String
deriving DecidableEq, Repr

/-- One entry of the document store, as built in `log_event` (`entry = {...}`):
the same fields as the relational row but with `raw_data` kept as the native
payload value of type `A`. -/
structure Entry (A : Type) where
  timestamp : String
  event_type : String
  description : String
  raw_data : A
deriving DecidableEq, Repr

/-- Parse-level state of the document-store file `JSON_LOG_FILE`:
`missing` models `os.path.exists` returning false, `corrupted` models an
existing file on which `json.load` raises `JSONDecodeError`, and `good l`
models a file that parses as the ordered collection `l` (the only JSON
shape the program itself ever writes is an array of entry objects). -/
inductive DocFile (A : Type) where
  | missing
  | corrupted
  | good (logs : List (Entry A))
deriving DecidableEq, Repr

/-- The observable state of the system the claims quantify over. -/
structure SysState (A : Type) where
  db : List Row
  docFile : DocFile A
  telegramSent : List String
  warnings : List String
  sleeps : List Nat
deriving DecidableEq, Repr

/-- The logs list read in the JSON branch of `log_event`: the parsed file
contents when the file exists and parses, and `[]` when the file is missing
or `json.load` raises (`logs = []` in both the guard and the except arm). -/
def priorLogs {A : Type} : DocFile A → List (Entry A)
  | .missing => []
  | .corrupted => []
  | .good l => l

/-- Embedding of `send_telegram_message`: on success the message is delivered
to the channel; on an exception `e` the exception is caught and only the
warning line is printed to the local diagnostic stream.  The function never
propagates an exception. -/
def send_telegram_message {A : Type} (sendErr : Option String) (message : String)
    (s : SysState A) : SysState A :=
  match sendErr with
  | none => { s with telegramSent := s.telegramSent ++ [message] }
  | some e =>
      { s with warnings := s.warnings ++ ["[WARNING] Failed to send Telegram message: " ++ e] }

/-- Embedding of `log_event(event_type, description, raw_data)`.  The
timestamp is computed once (`now`), the row is appended to the relational
store, the document store is read (missing or unparseable file read as `[]`),
extended with the entry and rewritten, and finally the notification is
attempted via `send_telegram_message`. -/
def log_event {A : Type} (dumps : A → String) (now : String) (sendErr : Option String)
    (event_type description : String) (raw_data : A) (s : SysState A) : SysState A :=
  let timestamp := now
  let entry : Entry A :=
    { timestamp := timestamp, event_type := event_type,
      description := description, raw_data := raw_data }
  let s1 : SysState A :=
    { s with db := s.db ++
        [{ timestamp := timestamp, event_type := event_type,
           description := description, raw_data := dumps raw_data }] }
  let logs := priorLogs s1.docFile
  let s2 : SysState A := { s1 with docFile := .good (logs ++ [entry]) }
  send_telegram_message sendErr ("[" ++ event_type ++ "] " ++ description) s2

/-- One call to `log_event` with its per-call context: the clock value and
the outcome of the Telegram send. -/
structure LogCall (A : Type) where
  now : String
  sendErr : Option String
  event_type : String
  description : String
  raw_data : A
deriving DecidableEq, Repr

/-- A finite sequence of `log_event` calls run in order. -/
def run_log_calls {A : Type} (dumps : A → String) : List (LogCall A) → SysState A → SysState A
  | [], s => s
  | c :: rest, s =>
      run_log_calls dumps rest
        (log_event dumps c.now c.sendErr c.event_type c.description c.raw_data s)

/-- Number of entries the document-store file parses to (0 when it is
missing or unparseable). -/
def docLen {A : Type} : DocFile A → Nat
  | .good l => l.length
  | _ => 0

/-! Readiness poller (`is_tws_running`). -/

/-- Embedding of the Python substring test `needle in haystack` on the
character lists of the two strings. -/
def containsSub (needle : List Char) : List Char → Bool
  | [] => needle.isEmpty
  | c :: rest => needle.isPrefixOf (c :: rest) || containsSub needle rest

/-- The Python expression `needle in haystack` on strings. -/
def pyIn (needle haystack : String) : Bool :=
  containsSub needle.toList haystack.toList

/-- The Python method `s.lower()`, modelled character by character. -/
def strLower (s : String) : String :=
  ⟨s.data.map Char.toLower⟩

/-- Embedding of `is_tws_running`: iterate the OS process list (each process
contributing `proc.info` name, `none` when psutil reports no name), and
return true at the first process whose name is truthy (neither `None` nor
the empty string) and contains the configured name case-insensitively;
return false when the list is exhausted. -/
def is_tws_running (twsProcessName : String) : List (Option String) → Bool
  | [] => false
  | name :: rest =>
      (match name with
       | none => false
       | some nm => (nm != "") && pyIn (strLower twsProcessName) (strLower nm))
      || is_tws_running twsProcessName rest

/-- Literal reading of the spec sentence for the poller (written from the
spec, for comparison with `is_tws_running`): some live process has a name
that contains the configured process name as a case-insensitive substring. -/
def specHasMatch (twsProcessName : String) (procs : List (Option String)) : Prop :=
  ∃ nm, some nm ∈ procs ∧ pyIn (strLower twsProcessName) (strLower nm) = true

/-! Event adapter and supervisor (`setup_ibkr_event_listeners`, `monitor_ibkr`). -/

/-- The fields of `fill.execution` that `handle_execution` interpolates,
carried as their Python `str` renderings. -/
structure Execution where
  side : String
  shares : String
  price : String
deriving DecidableEq, Repr

/-- A fill event argument: the execution data plus `fill.__dict__`
(the payload of type `A`). -/
structure Fill (A : Type) where
  execution : Execution
  dict : A
deriving DecidableEq, Repr

/-- An order argument: the fields the handlers interpolate (as their Python
`str` renderings) plus `order.__dict__`. -/
structure Order (A : Type) where
  status : String
  action : String
  totalQuantity : String
  dict : A
deriving DecidableEq, Repr

/-- Embedding of the `handle_order_status` callback registered on
`orderStatusEvent`. -/
def handle_order_status {A : Type} (dumps : A → String) (now : String)
    (sendErr : Option String) (order : Order A) (s : SysState A) : SysState A :=
  log_event dumps now sendErr "OrderStatus" ("Order status: " ++ order.status) order.dict s

/-- Embedding of the `handle_execution` callback registered on
`execDetailsEvent` (the `trade` argument is unused by the handler and
omitted). -/
def handle_execution {A : Type} (dumps : A → String) (now : String)
    (sendErr : Option String) (fill : Fill A) (s : SysState A) : SysState A :=
  log_event dumps now sendErr "Execution"
    ("Trade executed: " ++ fill.execution.side ++ " " ++ fill.execution.shares
      ++ " @ " ++ fill.execution.price)
    fill.dict s

/-- Embedding of the `handle_open_order` callback registered on
`openOrderEvent` (the `contract` and `order_state` arguments are unused by
the handler and omitted). -/
def handle_open_order {A : Type} (dumps : A → String) (now : String)
    (sendErr : Option String) (order : Order A) (s : SysState A) : SysState A :=
  log_event dumps now sendErr "OpenOrder"
    ("New order detected: " ++ order.action ++ " " ++ order.totalQuantity)
    order.dict s

/-- A remote event variant, dispatched by `setup_ibkr_event_listeners` to
the corresponding handler. -/
inductive RemoteEvent (A : Type) where
  | orderStatus (order : Order A)
  | execDetails (fill : Fill A)
  | openOrder (order : Order A)
deriving DecidableEq, Repr

/-- Dispatch of one remote event to its registered handler. -/
def dispatch_event {A : Type} (dumps : A → String) (now : String)
    (sendErr : Option String) (e : RemoteEvent A) (s : SysState A) : SysState A :=
  match e with
  | .orderStatus o => handle_order_status dumps now sendErr o s
  | .execDetails f => handle_execution dumps now sendErr f s
  | .openOrder o => handle_open_order dumps now sendErr o s

/-- One remote event delivery together with its call context. -/
structure EvCall (A : Type) where
  event : RemoteEvent A
  now : String
  sendErr : Option String
deriving DecidableEq, Repr

/-- The event-processing phase of `ib.run()`: events are delivered in order
and each one is fully handled before the next. -/
def run_session_events {A : Type} (dumps : A → String) :
    List (EvCall A) → SysState A → SysState A
  | [], s => s
  | c :: rest, s =>
      run_session_events dumps rest (dispatch_event dumps c.now c.sendErr c.event s)

/-- How a monitoring session ends: `ib.run()` returns normally, or raises
an exception rendered as `msg` (logged with clock value `now` and Telegram
outcome `sendErr`). -/
inductive SessionEnd where
  | clean
  | fail (msg now : String) (sendErr : Option String)
deriving DecidableEq, Repr

/-- One iteration of the `monitor_ibkr` loop as seen by the environment:
the poll is false (sleep 5), or the poll is true and `ib.connect` raises
(`openFail`), or the session opens, delivers `events` and then ends. -/
inductive PollResult (A : Type) where
  | notReady
  | openFail (msg now : String) (sendErr : Option String)
  | opened (events : List (EvCall A)) (ending : SessionEnd)
deriving DecidableEq, Repr

/-- The Error logging the `except` arm of `monitor_ibkr` performs:
`log_event("Error", f"Failed to connect or monitor: {e}", {})`, with
`emptyDict` the payload value of the Python literal `\x7b\x7d`. -/
def log_error {A : Type} (dumps : A → String) (emptyDict : A) (msg now : String)
    (sendErr : Option String) (s : SysState A) : SysState A :=
  log_event dumps now sendErr "Error" ("Failed to connect or monitor: " ++ msg) emptyDict s

/-- One iteration of the `while True` loop of `monitor_ibkr`. -/
def supervisor_step {A : Type} (dumps : A → String) (emptyDict : A)
    (p : PollResult A) (s : SysState A) : SysState A :=
  match p with
  | .notReady => { s with sleeps := s.sleeps ++ [5] }
  | .openFail msg now sendErr =>
      let s1 := log_error dumps emptyDict msg now sendErr s
      { s1 with sleeps := s1.sleeps ++ [10] }
  | .opened events ending =>
      let s1 := run_session_events dumps events s
      match ending with
      | .clean => s1
      | .fail msg now sendErr =>
          let s2 := log_error dumps emptyDict msg now sendErr s1
          { s2 with sleeps := s2.sleeps ++ [10] }

/-- A finite prefix of the supervisor loop execution. -/
def monitor_run {A : Type} (dumps : A → String) (emptyDict : A) :
    List (PollResult A) → SysState A → SysState A
  | [], s => s
  | p :: rest, s => monitor_run dumps emptyDict rest (supervisor_step dumps emptyDict p s)

/-- The relational row `log_event` writes for one dispatched remote event. -/
def eventRow {A : Type} (dumps : A → String) (now : String) : RemoteEvent A → Row
  | .orderStatus o =>
      { timestamp := now, event_type := "OrderStatus",
        description := "Order status: " ++ o.status, raw_data := dumps o.dict }
  | .execDetails f =>
      { timestamp := now, event_type := "Execution",
        description := "Trade executed: " ++ f.execution.side ++ " " ++ f.execution.shares
          ++ " @ " ++ f.execution.price,
        raw_data := dumps f.dict }
  | .openOrder o =>
      { timestamp := now, event_type := "OpenOrder",
        description := "New order detected: " ++ o.action ++ " " ++ o.totalQuantity,
        raw_data := dumps o.dict }

/-- The relational row the supervisor writes for a connection or monitoring
failure. -/
def errorRow {A : Type} (dumps : A → String) (emptyDict : A) (msg now : String) : Row :=
  { timestamp := now, event_type := "Error",
    description := "Failed to connect or monitor: " ++ msg, raw_data := dumps emptyDict }

/-- The relational rows one supervisor iteration appends, in order. -/
def pollRows {A : Type} (dumps : A → String) (emptyDict : A) : PollResult A → List Row
  | .notReady => []
  | .openFail msg now _ => [errorRow dumps emptyDict msg now]
  | .opened events ending =>
      events.map (fun c => eventRow dumps c.now c.event)
        ++ (match ending with
            | .clean => []
            | .fail msg now _ => [errorRow dumps emptyDict msg now])

/-- The relational rows a run of the supervisor appends, in order. -/
def pollsRows {A : Type} (dumps : A → String) (emptyDict : A) :
    List (PollResult A) → List Row
  | [] => []
  | p :: rest => pollRows dumps emptyDict p ++ pollsRows dumps emptyDict rest

/-- Number of remote events delivered across a run of the supervisor. -/
def numEvents {A : Type} : List (PollResult A) → Nat
  | [] => 0
  | .opened events _ :: rest => events.length + numEvents rest
  | _ :: rest => numEvents rest

/-- Number of connection or monitoring failures across a run (each is logged
as one Error record). -/
def numFailures {A : Type} : List (PollResult A) → Nat
  | [] => 0
  | .openFail _ _ _ :: rest => 1 + numFailures rest
  | .opened _ (.fail _ _ _) :: rest => 1 + numFailures rest
  | _ :: rest => numFailures rest

/-- Number of failed session-open attempts (`ib.connect` raising) in a run. -/
def failedOpens {A : Type} : List (PollResult A) → Nat
  | [] => 0
  | .openFail _ _ _ :: rest => 1 + failedOpens rest
  | _ :: rest => failedOpens rest

/-- The readiness value `is_tws_running` returned for one loop iteration. -/
def pollReady {A : Type} : PollResult A → Bool
  | .notReady => false
  | _ => true

/-- Whether an iteration counts as one session-open attempt
(`ib.connect` is reached exactly when the poll was true). -/
def openAttempts {A : Type} : List (PollResult A) → Nat
  | [] => 0
  | p :: rest => (if pollReady p then 1 else 0) + openAttempts rest

/-- Number of transitions of a boolean signal from false to true, given the
previous value of the signal. -/
def trueTransitions : Bool → List Bool → Nat
  | _, [] => 0
  | prev, b :: rest => (if b && !prev then 1 else 0) + trueTransitions b rest

/-- Whether an iteration had a cleanly ending session (no monitoring
failure), so that its only possible Error record is a failed open. -/
def sessionClean {A : Type} : PollResult A → Bool
  | .opened _ (.fail _ _ _) => false
  | _ => true

/-- Number of Error rows in a relational-store extract. -/
def countErrors (db : List Row) : Nat :=
  (db.filter (fun r => r.event_type == "Error")).length

/-- A concrete serializer on `Bool` payloads, used to instantiate abstract
serializer hypotheses at concrete inputs. -/
def dumpsB : Bool → String
  | true => "true"
  | false => "false"

/-- A concrete deserializer inverting `dumpsB`. -/
def loadsB (s : String) : Bool :=
  s == "true"

/-- A convenient initial state: empty relational store, document-store file
not yet created, nothing sent, nothing printed, no sleeps. -/
def initState (A : Type) : SysState A :=
  { db := [], docFile := .missing, telegramSent := [], warnings := [], sleeps := [] }

/-- A concrete fill argument: side BUY, quantity 100, price 50.25. -/
def fillBUY : Fill Bool :=
  { execution := { side := "BUY", shares := "100", price := "50.25" }, dict := true }

/-- A concrete failed session-open iteration. -/
def pollFail : PollResult Bool :=
  .openFail "boom" "t1" (some "te")

/-- A concrete iteration whose session opens, receives one fill event and
ends cleanly. -/
def pollSession : PollResult Bool :=
  .opened [{ event := .execDetails fillBUY, now := "t2", sendErr := none }] .clean

/-! Helper lemmas about the projections of one `log_event` call. -/

/-- The relational store after one `log_event` call: the prior rows followed
by the one new row. -/
theorem log_event_db {A : Type} (dumps : A → String) (now : String)
    (sendErr : Option String) (event_type description : String) (raw_data : A)
    (s : SysState A) :
    (log_event dumps now sendErr event_type description raw_data s).db
      = s.db ++ [{ timestamp := now, event_type := event_type,
                   description := description, raw_data := dumps raw_data }] := by
  cases sendErr <;> rfl

/-- The document store after one `log_event` call: the prior parsed entries
(empty on a missing or unparseable file) followed by the one new entry. -/
theorem log_event_docFile {A : Type} (dumps : A → String) (now : String)
    (sendErr : Option String) (event_type description : String) (raw_data : A)
    (s : SysState A) :
    (log_event dumps now sendErr event_type description raw_data s).docFile
      = .good (priorLogs s.docFile
          ++ [{ timestamp := now, event_type := event_type,
                description := description, raw_data := raw_data }]) := by
  cases sendErr <;> rfl

/-- A `log_event` call performs no sleep. -/
theorem log_event_sleeps {A : Type} (dumps : A → String) (now : String)
    (sendErr : Option String) (event_type description : String) (raw_data : A)
    (s : SysState A) :
    (log_event dumps now sendErr event_type description raw_data s).sleeps = s.sleeps := by
  cases sendErr <;> rfl

/-- The entry count of the parsed document store grows by exactly one per
`log_event` call. -/
theorem docLen_log_event {A : Type} (dumps : A → String) (now : String)
    (sendErr : Option String) (event_type description : String) (raw_data : A)
    (s : SysState A) :
    docLen (log_event dumps now sendErr event_type description raw_data s).docFile
      = docLen s.docFile + 1 := by
  rw [log_event_docFile]
  cases h : s.docFile <;> simp [docLen, priorLogs, h]

/-- `docLen` after a run of `log_event` calls grows by the number of calls. -/
theorem docLen_run_log_calls {A : Type} (dumps : A → String) :
    ∀ (calls : List (LogCall A)) (s : SysState A),
      docLen (run_log_calls dumps calls s).docFile = docLen s.docFile + calls.length := by
  intro calls
  induction calls with
  | nil => intro s; simp [run_log_calls]
  | cons c rest ih =>
      intro s
      rw [run_log_calls, ih, docLen_log_event]
      simp [Nat.add_comm, Nat.add_assoc, Nat.add_left_comm]

/-- Once the document store parses, it keeps parsing across further calls. -/
theorem run_log_calls_stays_good {A : Type} (dumps : A → String) :
    ∀ (calls : List (LogCall A)) (s : SysState A) (l : List (Entry A)),
      s.docFile = .good l →
      ∃ l2, (run_log_calls dumps calls s).docFile = .good l2 := by
  intro calls
  induction calls with
  | nil => intro s l h; exact ⟨l, h⟩
  | cons c rest ih =>
      intro s l h
      rw [run_log_calls]
      exact ih _ _ (log_event_docFile dumps c.now c.sendErr c.event_type c.description c.raw_data s)

/-- C1: on every `log_event` call the relational append and the
document-store rewrite are completed whether or not the notification send
fails, a send failure changes nothing in either store relative to a
successful send, delivers nothing to the channel, and is reported only as a
warning on the local diagnostic stream (the exception is caught inside
`send_telegram_message`, so it never propagates out of `log_event`, which
is a total function in this embedding). -/
theorem C1_write_then_notify {A : Type} (dumps : A → String)
    (now err event_type description : String) (raw_data : A) (s : SysState A) :
    (log_event dumps now (some err) event_type description raw_data s).db
        = s.db ++ [{ timestamp := now, event_type := event_type,
                     description := description, raw_data := dumps raw_data }]
    ∧ (log_event dumps now (some err) event_type description raw_data s).docFile
        = .good (priorLogs s.docFile
            ++ [{ timestamp := now, event_type := event_type,
                  description := description, raw_data := raw_data }])
    ∧ (log_event dumps now (some err) event_type description raw_data s).db
        = (log_event dumps now none event_type description raw_data s).db
    ∧ (log_event dumps now (some err) event_type description raw_data s).docFile
        = (log_event dumps now none event_type description raw_data s).docFile
    ∧ (log_event dumps now (some err) event_type description raw_data s).telegramSent
        = s.telegramSent
    ∧ (log_event dumps now (some err) event_type description raw_data s).warnings
        = s.warnings ++ ["[WARNING] Failed to send Telegram message: " ++ err]
    ∧ (log_event dumps now none event_type description raw_data s).telegramSent
        = s.telegramSent ++ ["[" ++ event_type ++ "] " ++ description] :=
  ⟨rfl, rfl, rfl, rfl, rfl, rfl, rfl⟩

/-- C8: a missing document-store file and an unparseable one are handled
identically by `log_event` (the whole resulting state agrees), the call
completes, and the file is rewritten to hold exactly the new record, any
prior unparseable contents being clobbered. -/
theorem C8_missing_or_corrupt_reset {A : Type} (dumps : A → String) (now : String)
    (sendErr : Option String) (event_type description : String) (raw_data : A)
    (s : SysState A)
    (h : s.docFile = .missing ∨ s.docFile = .corrupted) :
    log_event dumps now sendErr event_type description raw_data s
        = log_event dumps now sendErr event_type description raw_data
            { s with docFile := .missing }
    ∧ (log_event dumps now sendErr event_type description raw_data s).docFile
        = .good [{ timestamp := now, event_type := event_type,
                   description := description, raw_data := raw_data }] := by
  obtain ⟨db, doc, tg, w, sl⟩ := s
  rcases h with h | h <;> (simp only at h; subst h) <;>
    exact ⟨by cases sendErr <;> rfl, by cases sendErr <;> rfl⟩

/-- Witness for C8 at a concrete corrupted store. -/
theorem C8_witness :
    (({ initState Bool with docFile := .corrupted } : SysState Bool).docFile
        = DocFile.missing
      ∨ ({ initState Bool with docFile := .corrupted } : SysState Bool).docFile
        = DocFile.corrupted)
    ∧ (log_event dumpsB "2024-01-01T00:00:00+00:00" none "OrderStatus" "Order status: Filled"
          true { initState Bool with docFile := .corrupted }
        = log_event dumpsB "2024-01-01T00:00:00+00:00" none "OrderStatus" "Order status: Filled"
            true { ({ initState Bool with docFile := .corrupted } : SysState Bool) with
                    docFile := .missing }
      ∧ (log_event dumpsB "2024-01-01T00:00:00+00:00" none "OrderStatus" "Order status: Filled"
          true { initState Bool with docFile := .corrupted }).docFile
        = .good [{ timestamp := "2024-01-01T00:00:00+00:00", event_type := "OrderStatus",
                   description := "Order status: Filled", raw_data := true }]) :=
  ⟨Or.inr rfl,
   C8_missing_or_corrupt_reset dumpsB "2024-01-01T00:00:00+00:00" none "OrderStatus"
     "Order status: Filled" true { initState Bool with docFile := .corrupted } (Or.inr rfl)⟩

/-- C9: the relational row and the document entry written by one `log_event`
call agree field for field: both carry the single timestamp computed for the
call, the same event type and description, and the row raw data is the
serialization of the entry raw data, so any deserializer inverting the
serializer recovers the entry payload from the row. -/
theorem C9_row_entry_agree {A : Type} (dumps : A → String) (loads : String → A)
    (now : String) (sendErr : Option String) (event_type description : String)
    (raw_data : A) (s : SysState A)
    (hinv : Function.LeftInverse loads dumps) :
    ∃ (row : Row) (entry : Entry A),
      (log_event dumps now sendErr event_type description raw_data s).db = s.db ++ [row]
      ∧ (log_event dumps now sendErr event_type description raw_data s).docFile
          = .good (priorLogs s.docFile ++ [entry])
      ∧ row.timestamp = now
      ∧ entry.timestamp = now
      ∧ row.event_type = entry.event_type
      ∧ row.description = entry.description
      ∧ row.raw_data = dumps entry.raw_data
      ∧ loads row.raw_data = entry.raw_data := by
  refine ⟨_, _,
    log_event_db dumps now sendErr event_type description raw_data s,
    log_event_docFile dumps now sendErr event_type description raw_data s,
    rfl, rfl, rfl, rfl, rfl, hinv raw_data⟩

/-- Witness for C9 with a concrete serializer and its inverse. -/
theorem C9_witness :
    Function.LeftInverse loadsB dumpsB
    ∧ ∃ (row : Row) (entry : Entry Bool),
        (log_event dumpsB "2024-01-01T00:00:00+00:00" (some "boom") "Execution"
            "Trade executed: BUY 100 @ 50.25" true (initState Bool)).db
          = (initState Bool).db ++ [row]
        ∧ (log_event dumpsB "2024-01-01T00:00:00+00:00" (some "boom") "Execution"
            "Trade executed: BUY 100 @ 50.25" true (initState Bool)).docFile
          = .good (priorLogs (initState Bool).docFile ++ [entry])
        ∧ row.timestamp = "2024-01-01T00:00:00+00:00"
        ∧ entry.timestamp = "2024-01-01T00:00:00+00:00"
        ∧ row.event_type = entry.event_type
        ∧ row.description = entry.description
        ∧ row.raw_data = dumpsB entry.raw_data
        ∧ loadsB row.raw_data = entry.raw_data := by
  have hinv : Function.LeftInverse loadsB dumpsB := fun b => by cases b <;> rfl
  exact ⟨hinv,
    C9_row_entry_agree dumpsB loadsB "2024-01-01T00:00:00+00:00" (some "boom") "Execution"
      "Trade executed: BUY 100 @ 50.25" true (initState Bool) hinv⟩

/-- C2: starting from a missing or unparseable document-store file, after
any nonempty finite sequence of `log_event` calls (the first of which
recovers from the missing or corrupted file), the file parses as an ordered
collection whose length is the number of calls made. -/
theorem C2_doc_length_eq_calls {A : Type} (dumps : A → String)
    (calls : List (LogCall A)) (s : SysState A)
    (h : s.docFile = .missing ∨ s.docFile = .corrupted) (hne : calls ≠ []) :
    ∃ l : List (Entry A),
      (run_log_calls dumps calls s).docFile = .good l ∧ l.length = calls.length := by
  obtain ⟨c, rest, rfl⟩ := List.exists_cons_of_ne_nil hne
  rw [run_log_calls]
  obtain ⟨l2, hl2⟩ := run_log_calls_stays_good dumps rest _ _
    (log_event_docFile dumps c.now c.sendErr c.event_type c.description c.raw_data s)
  refine ⟨l2, hl2, ?_⟩
  have hlen := docLen_run_log_calls dumps (c :: rest) s
  rw [run_log_calls, hl2] at hlen
  have h0 : docLen s.docFile = 0 := by rcases h with h | h <;> simp [docLen, h]
  rw [h0] at hlen
  simpa [docLen] using hlen

/-- Witness for C2: two calls from the initial (missing-file) state. -/
theorem C2_witness :
    ((initState Bool).docFile = DocFile.missing ∨ (initState Bool).docFile = DocFile.corrupted)
    ∧ ([{ now := "t1", sendErr := none, event_type := "OrderStatus",
          description := "Order status: Filled", raw_data := true },
        { now := "t2", sendErr := some "boom", event_type := "Error",
          description := "Failed to connect or monitor: x", raw_data := false }]
        : List (LogCall Bool)) ≠ []
    ∧ ∃ l : List (Entry Bool),
        (run_log_calls dumpsB
          [{ now := "t1", sendErr := none, event_type := "OrderStatus",
             description := "Order status: Filled", raw_data := true },
           { now := "t2", sendErr := some "boom", event_type := "Error",
             description := "Failed to connect or monitor: x", raw_data := false }]
          (initState Bool)).docFile = .good l
        ∧ l.length
            = ([{ now := "t1", sendErr := none, event_type := "OrderStatus",
                  description := "Order status: Filled", raw_data := true },
                { now := "t2", sendErr := some "boom", event_type := "Error",
                  description := "Failed to connect or monitor: x", raw_data := false }]
                : List (LogCall Bool)).length := by
  refine ⟨Or.inl rfl, by simp, ?_⟩
  exact C2_doc_length_eq_calls dumpsB _ (initState Bool) (Or.inl rfl) (by simp)

/-! Readiness-poller lemmas. -/

/-- The empty needle is a substring of every haystack. -/
theorem containsSub_nil : ∀ l : List Char, containsSub [] l = true
  | [] => rfl
  | _ :: _ => by rw [containsSub]; simp [List.isPrefixOf]

/-- Characterization of `is_tws_running`: it returns true exactly when some
process has a non-None, non-empty name whose lowercasing contains the
lowercased configured name. -/
theorem is_tws_running_eq_true_iff (cfg : String) :
    ∀ procs : List (Option String),
      is_tws_running cfg procs = true
        ↔ ∃ nm, some nm ∈ procs ∧ nm ≠ "" ∧ pyIn (strLower cfg) (strLower nm) = true := by
  intro procs
  induction procs with
  | nil => simp [is_tws_running]
  | cons name rest ih => cases name <;> simp [is_tws_running, ih, bne_iff_ne]

/-- C7 counterexample: with the configured process name set to the empty
string and the process list holding one process whose name is the empty
string, the claimed characterization fails: the empty string does contain
the empty string as a (case-insensitive) substring, yet `is_tws_running`
returns false because the code first requires the name to be truthy. -/
theorem C7_counterexample :
    ¬ (is_tws_running "" [some ""] = true ↔ specHasMatch "" [some ""]) := by
  intro h
  have hm : specHasMatch "" [some ""] := ⟨"", by simp, by decide⟩
  exact absurd (h.mpr hm) (by decide)

/-- C7 amended: the poller returns true if and only if some live process
has a non-empty name that contains the configured process name as a
case-insensitive substring (and false otherwise; it is a total function of
the observed process list, with no effect on any state). -/
theorem C7_poller_characterization (cfg : String) (procs : List (Option String)) :
    is_tws_running cfg procs = true
      ↔ ∃ nm, some nm ∈ procs ∧ nm ≠ "" ∧ pyIn (strLower cfg) (strLower nm) = true :=
  is_tws_running_eq_true_iff cfg procs

/-- C10: with the empty configured name the poller returns true exactly when
some process has a non-empty name, and a process with an absent or empty
name never contributes a match for any configured name. -/
theorem C10_empty_name_cases (procs : List (Option String)) :
    (is_tws_running "" procs = true ↔ ∃ nm, some nm ∈ procs ∧ nm ≠ "")
    ∧ (∀ cfg, is_tws_running cfg (none :: procs) = is_tws_running cfg procs)
    ∧ (∀ cfg, is_tws_running cfg (some "" :: procs) = is_tws_running cfg procs) := by
  refine ⟨?_, ?_, ?_⟩
  · rw [is_tws_running_eq_true_iff]
    constructor
    · rintro ⟨nm, hmem, hne, _⟩; exact ⟨nm, hmem, hne⟩
    · rintro ⟨nm, hmem, hne⟩
      refine ⟨nm, hmem, hne, ?_⟩
      simp only [pyIn]
      have h1 : (strLower "").toList = [] := rfl
      rw [h1]
      exact containsSub_nil _
  · intro cfg; simp [is_tws_running]
  · intro cfg; simp [is_tws_running, bne_self_eq_false]

/-! Event-adapter and supervisor lemmas. -/

/-- Dispatching one remote event appends exactly its row to the relational
store. -/
theorem dispatch_event_db {A : Type} (dumps : A → String) (now : String)
    (sendErr : Option String) (e : RemoteEvent A) (s : SysState A) :
    (dispatch_event dumps now sendErr e s).db = s.db ++ [eventRow dumps now e] := by
  cases e <;>
    simp [dispatch_event, handle_order_status, handle_execution, handle_open_order,
      log_event_db, eventRow]

/-- The event-processing phase appends one row per delivered event, in
delivery order. -/
theorem run_session_events_db {A : Type} (dumps : A → String) :
    ∀ (events : List (EvCall A)) (s : SysState A),
      (run_session_events dumps events s).db
        = s.db ++ events.map (fun c => eventRow dumps c.now c.event) := by
  intro events
  induction events with
  | nil => intro s; simp [run_session_events]
  | cons c rest ih =>
      intro s
      rw [run_session_events, ih, dispatch_event_db]
      simp

/-- One supervisor iteration appends exactly its rows to the relational
store. -/
theorem supervisor_step_db {A : Type} (dumps : A → String) (emptyDict : A)
    (p : PollResult A) (s : SysState A) :
    (supervisor_step dumps emptyDict p s).db = s.db ++ pollRows dumps emptyDict p := by
  cases p with
  | notReady => simp [supervisor_step, pollRows]
  | openFail msg now sendErr =>
      simp [supervisor_step, pollRows, log_error, log_event_db, errorRow]
  | opened events ending =>
      cases ending with
      | clean => simp [supervisor_step, pollRows, run_session_events_db]
      | fail msg now sendErr =>
          simp [supervisor_step, pollRows, log_error, log_event_db,
            run_session_events_db, errorRow]

/-- A supervisor run appends exactly the concatenation of the per-iteration
rows, in order. -/
theorem monitor_run_db {A : Type} (dumps : A → String) (emptyDict : A) :
    ∀ (polls : List (PollResult A)) (s : SysState A),
      (monitor_run dumps emptyDict polls s).db = s.db ++ pollsRows dumps emptyDict polls := by
  intro polls
  induction polls with
  | nil => intro s; simp [monitor_run, pollsRows]
  | cons p rest ih =>
      intro s
      rw [monitor_run, ih, supervisor_step_db, pollsRows]
      simp

/-- The number of rows a run appends is the number of delivered events plus
the number of connection or monitoring failures. -/
theorem pollsRows_length {A : Type} (dumps : A → String) (emptyDict : A) :
    ∀ polls : List (PollResult A),
      (pollsRows dumps emptyDict polls).length = numEvents polls + numFailures polls := by
  intro polls
  induction polls with
  | nil => rfl
  | cons p rest ih =>
      cases p with
      | notReady => simpa [pollsRows, pollRows, numEvents, numFailures] using ih
      | openFail msg now sendErr =>
          simp [pollsRows, pollRows, numEvents, numFailures, ih]
          omega
      | opened events ending =>
          cases ending with
          | clean =>
              simp [pollsRows, pollRows, numEvents, numFailures, ih]
              omega
          | fail msg now sendErr =>
              simp [pollsRows, pollRows, numEvents, numFailures, ih]
              omega

/-- C3: over any finite supervisor run, the relational store receives
exactly one row per delivered remote event and one per connection or
monitoring failure, in delivery order (the rows are the in-order image of
the inputs under `eventRow` and `errorRow`); in particular from an empty
store the final row count is N+E. -/
theorem C3_one_row_per_event {A : Type} (dumps : A → String) (emptyDict : A)
    (polls : List (PollResult A)) (s : SysState A) :
    (monitor_run dumps emptyDict polls s).db = s.db ++ pollsRows dumps emptyDict polls
    ∧ (pollsRows dumps emptyDict polls).length = numEvents polls + numFailures polls
    ∧ (monitor_run dumps emptyDict polls (initState A)).db.length
        = numEvents polls + numFailures polls := by
  refine ⟨monitor_run_db dumps emptyDict polls s, pollsRows_length dumps emptyDict polls, ?_⟩
  rw [monitor_run_db]
  simp [initState, pollsRows_length]

/-- C4: a fill event whose execution renders as side BUY, quantity 100,
price 50.25 is adapted to an Execution record with description
exactly "Trade executed: BUY 100 @ 50.25", appended as a row to the
relational store. -/
theorem C4_fill_description {A : Type} (dumps : A → String) (now : String)
    (sendErr : Option String) (payload : A) (s : SysState A) :
    (handle_execution dumps now sendErr
        { execution := { side := "BUY", shares := "100", price := "50.25" },
          dict := payload } s).db
      = s.db ++ [{ timestamp := now, event_type := "Execution",
                   description := "Trade executed: BUY 100 @ 50.25",
                   raw_data := dumps payload }] := by
  rw [handle_execution, log_event_db]
  simp

/-- Counting Error rows distributes over concatenation. -/
theorem countErrors_append (a b : List Row) :
    countErrors (a ++ b) = countErrors a + countErrors b := by
  simp [countErrors, List.filter_append]

/-- Counting Error rows, one row at a time. -/
theorem countErrors_cons (r : Row) (db : List Row) :
    countErrors (r :: db) = (if r.event_type == "Error" then 1 else 0) + countErrors db := by
  rw [countErrors, countErrors, List.filter_cons]
  split <;> simp [Nat.add_comm]

/-- Rows adapted from remote events are never Error rows. -/
theorem countErrors_eventRows {A : Type} (dumps : A → String) :
    ∀ events : List (EvCall A),
      countErrors (events.map (fun c => eventRow dumps c.now c.event)) = 0 := by
  have e1 : (("OrderStatus" : String) == "Error") = false := by decide
  have e2 : (("Execution" : String) == "Error") = false := by decide
  have e3 : (("OpenOrder" : String) == "Error") = false := by decide
  intro events
  induction events with
  | nil => rfl
  | cons c rest ih =>
      rw [List.map_cons, countErrors_cons]
      have hhead : (if (eventRow dumps c.now c.event).event_type == "Error" then 1 else 0) = 0 := by
        cases c.event <;> simp [eventRow, e1, e2, e3]
      rw [hhead, ih]

/-- A failure row is exactly one Error row. -/
theorem countErrors_errorRow {A : Type} (dumps : A → String) (emptyDict : A)
    (msg now : String) :
    countErrors [errorRow dumps emptyDict msg now] = 1 := by
  have e0 : (("Error" : String) == "Error") = true := by decide
  simp [countErrors_cons, errorRow, e0, countErrors]

/-- In an iteration with no monitoring failure, the Error rows written are
exactly one per failed session open. -/
theorem countErrors_pollRows_clean {A : Type} (dumps : A → String) (emptyDict : A)
    (p : PollResult A) (hp : sessionClean p = true) :
    countErrors (pollRows dumps emptyDict p) = failedOpens [p] := by
  cases p with
  | notReady => rfl
  | openFail msg now sendErr =>
      simp [pollRows, failedOpens, countErrors_errorRow dumps emptyDict msg now]
  | opened events ending =>
      cases ending with
      | clean =>
          have hp2 : pollRows dumps emptyDict (PollResult.opened events .clean)
              = events.map (fun c => eventRow dumps c.now c.event) := by
            simp [pollRows]
          rw [hp2, countErrors_eventRows dumps events]
          rfl
      | fail msg now sendErr => simp [sessionClean] at hp

/-- Failed-open counting, one iteration at a time. -/
theorem failedOpens_cons {A : Type} (p : PollResult A) (rest : List (PollResult A)) :
    failedOpens (p :: rest) = failedOpens [p] + failedOpens rest := by
  cases p <;> simp [failedOpens]

/-- C5: along the readiness toggle false, true, false, true (one poll per
loop iteration), the supervisor reaches the session-open call on exactly the
two iterations whose poll is true, which is exactly one attempt per
false-to-true transition of the readiness signal, and (when the sessions
that do open end without a monitoring failure) the Error rows added to the
relational store number exactly one per failed open attempt. -/
theorem C5_toggle_attempts {A : Type} (dumps : A → String) (emptyDict : A)
    (r1 r2 : PollResult A) (s : SysState A)
    (h1 : pollReady r1 = true) (h2 : pollReady r2 = true)
    (hc1 : sessionClean r1 = true) (hc2 : sessionClean r2 = true) :
    openAttempts ([.notReady, r1, .notReady, r2] : List (PollResult A)) = 2
    ∧ trueTransitions false
        (([.notReady, r1, .notReady, r2] : List (PollResult A)).map pollReady) = 2
    ∧ countErrors (monitor_run dumps emptyDict
          ([.notReady, r1, .notReady, r2] : List (PollResult A)) s).db
        = countErrors s.db
            + failedOpens ([.notReady, r1, .notReady, r2] : List (PollResult A)) := by
  refine ⟨?_, ?_, ?_⟩
  · simp only [openAttempts]
    rw [h1, h2]
    simp [pollReady]
  · simp only [List.map_cons, List.map_nil]
    rw [h1, h2]
    simp [trueTransitions, pollReady]
  · rw [monitor_run_db, countErrors_append]
    have hn : countErrors (pollRows dumps emptyDict (PollResult.notReady : PollResult A)) = 0 :=
      rfl
    have hnil : countErrors ([] : List Row) = 0 := rfl
    have hr1 := countErrors_pollRows_clean dumps emptyDict r1 hc1
    have hr2 := countErrors_pollRows_clean dumps emptyDict r2 hc2
    have hf : failedOpens ([.notReady, r1, .notReady, r2] : List (PollResult A))
        = failedOpens [r1] + failedOpens [r2] := by
      rw [failedOpens_cons PollResult.notReady (r1 :: PollResult.notReady :: r2 :: []),
        failedOpens_cons r1 (PollResult.notReady :: r2 :: []),
        failedOpens_cons PollResult.notReady (r2 :: [])]
      simp [failedOpens]
    rw [hf]
    simp only [pollsRows, countErrors_append, hn, hnil, hr1, hr2]
    omega

/-- Witness for C5: first open attempt fails, second opens, receives one
fill event and ends cleanly. -/
theorem C5_witness :
    pollReady pollFail = true
    ∧ pollReady pollSession = true
    ∧ sessionClean pollFail = true
    ∧ sessionClean pollSession = true
    ∧ (openAttempts ([.notReady, pollFail, .notReady, pollSession]
          : List (PollResult Bool)) = 2
      ∧ trueTransitions false
          (([.notReady, pollFail, .notReady, pollSession]
            : List (PollResult Bool)).map pollReady) = 2
      ∧ countErrors (monitor_run dumpsB false
            ([.notReady, pollFail, .notReady, pollSession]
              : List (PollResult Bool)) (initState Bool)).db
          = countErrors (initState Bool).db
              + failedOpens ([.notReady, pollFail, .notReady, pollSession]
                  : List (PollResult Bool))) :=
  ⟨rfl, rfl, rfl, rfl,
   C5_toggle_attempts dumpsB false pollFail pollSession (initState Bool) rfl rfl rfl rfl⟩

/-- C6: a session-open failure and a monitoring failure are both caught
inside the loop: each appends exactly one Error row whose description is
the fixed prefix followed by the failure reason (so it contains the
reason), with the empty payload, sleeps the longer fixed interval of 10
seconds, and the loop goes on to process the remaining iterations
unconditionally (the step function is total, so no such exception
escapes the loop). -/
theorem C6_failures_nonfatal {A : Type} (dumps : A → String) (emptyDict : A)
    (msg now : String) (sendErr : Option String) (events : List (EvCall A))
    (s : SysState A) (rest : List (PollResult A)) :
    (supervisor_step dumps emptyDict (.openFail msg now sendErr) s).db
        = s.db ++ [{ timestamp := now, event_type := "Error",
                     description := "Failed to connect or monitor: " ++ msg,
                     raw_data := dumps emptyDict }]
    ∧ (supervisor_step dumps emptyDict (.openFail msg now sendErr) s).docFile
        = .good (priorLogs s.docFile
            ++ [{ timestamp := now, event_type := "Error",
                  description := "Failed to connect or monitor: " ++ msg,
                  raw_data := emptyDict }])
    ∧ (supervisor_step dumps emptyDict (.openFail msg now sendErr) s).sleeps
        = s.sleeps ++ [10]
    ∧ (∃ pre, "Failed to connect or monitor: " ++ msg = pre ++ msg)
    ∧ (supervisor_step dumps emptyDict (.opened events (.fail msg now sendErr)) s).db
        = (run_session_events dumps events s).db
            ++ [{ timestamp := now, event_type := "Error",
                  description := "Failed to connect or monitor: " ++ msg,
                  raw_data := dumps emptyDict }]
    ∧ (supervisor_step dumps emptyDict (.opened events (.fail msg now sendErr)) s).docFile
        = .good (priorLogs (run_session_events dumps events s).docFile
            ++ [{ timestamp := now, event_type := "Error",
                  description := "Failed to connect or monitor: " ++ msg,
                  raw_data := emptyDict }])
    ∧ (supervisor_step dumps emptyDict (.opened events (.fail msg now sendErr)) s).sleeps
        = (run_session_events dumps events s).sleeps ++ [10]
    ∧ monitor_run dumps emptyDict (.openFail msg now sendErr :: rest) s
        = monitor_run dumps emptyDict rest
            (supervisor_step dumps emptyDict (.openFail msg now sendErr) s)
    ∧ monitor_run dumps emptyDict (.opened events (.fail msg now sendErr) :: rest) s
        = monitor_run dumps emptyDict rest
            (supervisor_step dumps emptyDict (.opened events (.fail msg now sendErr)) s) := by
  refine ⟨?_, ?_, ?_, ⟨"Failed to connect or monitor: ", rfl⟩, ?_, ?_, ?_, rfl, rfl⟩
  · simp [supervisor_step, log_error, log_event_db]
  · simp [supervisor_step, log_error, log_event_docFile]
  · simp [supervisor_step, log_error, log_event_sleeps]
  · simp [supervisor_step, log_error, log_event_db]
  · simp [supervisor_step, log_error, log_event_docFile]
  · simp [supervisor_step, log_error, log_event_sleeps]

end OTC
